import Mathlib

/-!
Shallow embedding of `src/order_total/src/main.rs`, a hyper-based HTTP
microservice that computes an order total from an external sales-tax-rate
lookup.  Rust `f32` values are modelled as exact rationals (`ℚ`): the
algebraic content of the computation is preserved, IEEE rounding and the
non-finite values (inf/nan) are outside the model.  Rust `i32` is modelled
as `Int` (no arithmetic is performed on those fields).  Library boundaries
(hyper body read, reqwest transport) are modelled as explicit outcome data;
`serde_json` parsing/serialization is modelled concretely below.
-/

namespace OrderTotal

/-- Model of a `serde_json` number: a lexically-integral literal in the
i64/u64 range is kept as an integer, every other numeric literal is a
float (modelled as an exact rational). -/
inductive JNum where
  | int (n : Int)
  | float (q : ℚ)
deriving DecidableEq, Repr

/-- Model of a `serde_json::Value`. -/
inductive Json where
  | null
  | bool (b : Bool)
  | num (n : JNum)
  | str (s : String)
  | arr (elems : List Json)
  | obj (fields : List (String × Json))
deriving Repr

/-- JSON insignificant whitespace, as accepted by `serde_json`. -/
def isWs (c : Char) : Bool :=
  c = ' ' || c = '\t' || c = '\n' || c = '\r'

/-- Drop leading JSON whitespace. -/
def skipWs : List Char → List Char
  | [] => []
  | c :: cs => if isWs c then skipWs cs else c :: cs

/-- Numeric value of a decimal digit character. -/
def digitVal (c : Char) : Nat := c.toNat - '0'.toNat

/-- Value of a decimal digit string. -/
def digitsToNat (ds : List Char) : Nat :=
  ds.foldl (fun a c => a * 10 + digitVal c) 0

/-- Multiplication of rationals written through the smart constructor
`mkRat`, so that concrete values reduce by kernel computation (the library
`Rat.mul` is irreducible).  `qmul_eq_mul` below proves it is ordinary
multiplication. -/
def qmul (a b : ℚ) : ℚ := mkRat (a.num * b.num) (a.den * b.den)

/-- Addition of rationals through `mkRat`; `qadd_eq_add` below proves it is
ordinary addition. -/
def qadd (a b : ℚ) : ℚ := mkRat (a.num * b.den + b.num * a.den) (a.den * b.den)

/-- Integer power of ten as a rational, written without the typeclass
`zpow` so that concrete values reduce by kernel computation. -/
def pow10 : Int → ℚ
  | .ofNat n => mkRat (Int.ofNat (10 ^ n)) 1
  | .negSucc n => mkRat 1 (10 ^ (n + 1))

/-- Value of a hex digit character, `none` if not a hex digit, computed on
the character's code point. -/
def hexVal (c : Char) : Option Nat :=
  let n := c.toNat
  if 48 ≤ n ∧ n ≤ 57 then some (n - 48)
  else if 97 ≤ n ∧ n ≤ 102 then some (n - 87)
  else if 65 ≤ n ∧ n ≤ 70 then some (n - 55)
  else none

/-- Parse the body of a JSON string literal (the opening quote already
consumed), returning the decoded characters and the rest of the input.
Supports the standard JSON escapes; a `\uXXXX` escape is mapped to the
corresponding scalar value (surrogate pairing is not modelled). -/
def parseStringBody : List Char → Option (List Char × List Char)
  | [] => none
  | '"' :: rest => some ([], rest)
  | '\\' :: '"' :: rest => (parseStringBody rest).map (fun p => ('"' :: p.1, p.2))
  | '\\' :: '\\' :: rest => (parseStringBody rest).map (fun p => ('\\' :: p.1, p.2))
  | '\\' :: '/' :: rest => (parseStringBody rest).map (fun p => ('/' :: p.1, p.2))
  | '\\' :: 'n' :: rest => (parseStringBody rest).map (fun p => ('\n' :: p.1, p.2))
  | '\\' :: 't' :: rest => (parseStringBody rest).map (fun p => ('\t' :: p.1, p.2))
  | '\\' :: 'r' :: rest => (parseStringBody rest).map (fun p => ('\r' :: p.1, p.2))
  | '\\' :: 'b' :: rest => (parseStringBody rest).map (fun p => (Char.ofNat 8 :: p.1, p.2))
  | '\\' :: 'f' :: rest => (parseStringBody rest).map (fun p => (Char.ofNat 12 :: p.1, p.2))
  | '\\' :: 'u' :: h1 :: h2 :: h3 :: h4 :: rest =>
      match hexVal h1, hexVal h2, hexVal h3, hexVal h4 with
      | some x, some y, some z, some w =>
          (parseStringBody rest).map
            (fun p => (Char.ofNat (((x * 16 + y) * 16 + z) * 16 + w) :: p.1, p.2))
      | _, _, _, _ => none
  | '\\' :: _ => none
  | c :: rest =>
      if c.toNat < 32 then none
      else (parseStringBody rest).map (fun p => (c :: p.1, p.2))

/-- Parse a JSON number literal per RFC 8259 (`-?int frac? exp?`, no leading
zeros, no leading `+`, no bare dot), returning the number and the rest.
A literal with no fraction/exponent part that fits the i64/u64 range is an
integer, as in `serde_json`; everything else is a float. -/
def parseNumber (cs : List Char) : Option (JNum × List Char) :=
  let sgn : Bool × List Char := match cs with
    | '-' :: tl => (true, tl)
    | _ => (false, cs)
  let neg := sgn.1
  let cs1 := sgn.2
  let ipR : Option (List Char × List Char) := match cs1 with
    | '0' :: r => some (['0'], r)
    | c :: _ => if c.isDigit then some (cs1.span Char.isDigit) else none
    | [] => none
  match ipR with
  | none => none
  | some (ip, r1) =>
    let fpR : Option (List Char × List Char) := match r1 with
      | '.' :: r =>
          let p := r.span Char.isDigit
          if p.1 = [] then none else some p
      | _ => some ([], r1)
    match fpR with
    | none => none
    | some (fp, r2) =>
      let expR : Option (Bool × List Char × List Char) := match r2 with
        | 'e' :: r | 'E' :: r =>
            let (eneg, r3) := match r with
              | '-' :: r4 => (true, r4)
              | '+' :: r4 => (false, r4)
              | _ => (false, r)
            let p := r3.span Char.isDigit
            if p.1 = [] then none else some (eneg, p.1, p.2)
        | _ => some (false, [], r2)
      match expR with
      | none => none
      | some (eneg, eds, rest) =>
        let mant : Nat := digitsToNat (ip ++ fp)
        let expVal : Int :=
          (if eneg then -(digitsToNat eds : Int) else (digitsToNat eds : Int))
            - (fp.length : Int)
        let q : ℚ := qmul (if neg then -(mant : ℚ) else (mant : ℚ)) (pow10 expVal)
        let isIntLit : Bool := fp = [] && eds = [] && decide (r2 = rest)
        if isIntLit then
          let n : Int := if neg then -(mant : Int) else (mant : Int)
          if -(2 ^ 63) ≤ n ∧ n ≤ 2 ^ 64 - 1 then some (.int n, rest)
          else some (.float q, rest)
        else some (.float q, rest)

mutual

/-- Parse one JSON value (leading whitespace allowed), fuel-bounded. -/
def parseValue : Nat → List Char → Option (Json × List Char)
  | 0, _ => none
  | Nat.succ f, cs =>
    match skipWs cs with
    | 'n' :: 'u' :: 'l' :: 'l' :: tl => some (.null, tl)
    | 't' :: 'r' :: 'u' :: 'e' :: tl => some (.bool true, tl)
    | 'f' :: 'a' :: 'l' :: 's' :: 'e' :: tl => some (.bool false, tl)
    | '"' :: r => (parseStringBody r).map (fun p => (.str (String.mk p.1), p.2))
    | '[' :: r =>
        (match skipWs r with
         | ']' :: r2 => some (.arr [], r2)
         | _ => (parseArrayRest f r).map (fun p => (.arr p.1, p.2)))
    | '{' :: r =>
        (match skipWs r with
         | '}' :: r2 => some (.obj [], r2)
         | _ => (parseObjRest f r).map (fun p => (.obj p.1, p.2)))
    | cs2 => (parseNumber cs2).map (fun p => (.num p.1, p.2))

/-- Parse the elements of a non-empty JSON array (after `[`), fuel-bounded. -/
def parseArrayRest : Nat → List Char → Option (List Json × List Char)
  | 0, _ => none
  | Nat.succ f, cs =>
    match parseValue f cs with
    | none => none
    | some (v, r1) =>
      match skipWs r1 with
      | ',' :: r2 => (parseArrayRest f r2).map (fun p => (v :: p.1, p.2))
      | ']' :: r2 => some ([v], r2)
      | _ => none

/-- Parse the members of a non-empty JSON object (after `\x7b`), fuel-bounded. -/
def parseObjRest : Nat → List Char → Option (List (String × Json) × List Char)
  | 0, _ => none
  | Nat.succ f, cs =>
    match skipWs cs with
    | '"' :: k0 =>
      match parseStringBody k0 with
      | none => none
      | some (key, k1) =>
        match skipWs k1 with
        | ':' :: k2 =>
          match parseValue f k2 with
          | none => none
          | some (v, k3) =>
            match skipWs k3 with
            | ',' :: k4 => (parseObjRest f k4).map (fun p => ((String.mk key, v) :: p.1, p.2))
            | '}' :: k4 => some ([(String.mk key, v)], k4)
            | _ => none
        | _ => none
    | _ => none

end

/-- Model of `serde_json` parsing a byte slice into a `Value`: one JSON
value, surrounded by optional whitespace, consuming the whole input. -/
def parseJson? (s : String) : Option Json :=
  match parseValue (s.length + 1) s.data with
  | some (j, rest) => if skipWs rest = [] then some j else none
  | none => none

/-- The `Order` struct of `main.rs`: `i32` fields as `Int`, `f32` fields as
exact rationals, `String` fields as `String`. -/
structure Order where
  order_id : Int
  product_id : Int
  quantity : Int
  subtotal : ℚ
  shipping_address : String
  shipping_zip : String
  total : ℚ
deriving DecidableEq, Repr

/-- The seven field names of `Order`, in declaration order (the wire
contract of the derived serde impls). -/
def orderFieldNames : List String :=
  ["order_id", "product_id", "quantity", "subtotal", "shipping_address",
   "shipping_zip", "total"]

/-- Deserializing an `i32` from a JSON value (`serde_json` semantics): only
a lexically-integral number in i32 range is accepted; a float literal or
any other value is a type error. -/
def decodeI32 : Json → Option Int
  | .num (.int n) => if -(2 ^ 31) ≤ n ∧ n < 2 ^ 31 then some n else none
  | _ => none

/-- Deserializing an `f32` from a JSON value: any numeric literal is
accepted (integers are widened); anything else is a type error. -/
def decodeF32 : Json → Option ℚ
  | .num (.int n) => some (n : ℚ)
  | .num (.float q) => some q
  | _ => none

/-- Deserializing a `String` from a JSON value. -/
def decodeString : Json → Option String
  | .str s => some s
  | _ => none

/-- Partially-built `Order` used while folding over the JSON object's
fields, mirroring the derived `Deserialize` visitor's per-field options. -/
structure OrderBuilder where
  order_id : Option Int := none
  product_id : Option Int := none
  quantity : Option Int := none
  subtotal : Option ℚ := none
  shipping_address : Option String := none
  shipping_zip : Option String := none
  total : Option ℚ := none

/-- Process one JSON object member, as the derived `Deserialize` visitor
does: a known field is decoded at its type and rejected if duplicated; an
unknown field is ignored. -/
def setOrderField (b : OrderBuilder) (name : String) (v : Json) : Option OrderBuilder :=
  if name = "order_id" then
    match b.order_id with
    | some _ => none
    | none => (decodeI32 v).map (fun n => { b with order_id := some n })
  else if name = "product_id" then
    match b.product_id with
    | some _ => none
    | none => (decodeI32 v).map (fun n => { b with product_id := some n })
  else if name = "quantity" then
    match b.quantity with
    | some _ => none
    | none => (decodeI32 v).map (fun n => { b with quantity := some n })
  else if name = "subtotal" then
    match b.subtotal with
    | some _ => none
    | none => (decodeF32 v).map (fun q => { b with subtotal := some q })
  else if name = "shipping_address" then
    match b.shipping_address with
    | some _ => none
    | none => (decodeString v).map (fun s => { b with shipping_address := some s })
  else if name = "shipping_zip" then
    match b.shipping_zip with
    | some _ => none
    | none => (decodeString v).map (fun s => { b with shipping_zip := some s })
  else if name = "total" then
    match b.total with
    | some _ => none
    | none => (decodeF32 v).map (fun q => { b with total := some q })
  else some b

/-- Fold the object's members through `setOrderField` in document order. -/
def decodeOrderFields : List (String × Json) → OrderBuilder → Option OrderBuilder
  | [], b => some b
  | (n, v) :: rest, b =>
    match setOrderField b n v with
    | none => none
    | some b2 => decodeOrderFields rest b2

/-- Finish the build: every field must have been seen (serde's
missing-field error otherwise). -/
def buildOrder (b : OrderBuilder) : Option Order :=
  match b.order_id, b.product_id, b.quantity, b.subtotal,
        b.shipping_address, b.shipping_zip, b.total with
  | some oid, some pid, some qty, some sub, some addr, some zip, some tot =>
      some ⟨oid, pid, qty, sub, addr, zip, tot⟩
  | _, _, _, _, _, _, _ => none

/-- Derived `Deserialize<Order>` on a JSON value: an object is decoded
field-by-field (unknown fields ignored, duplicates rejected, all seven
required); serde's derived impl also accepts a sequence of exactly the
seven field values in declaration order; everything else is a type error. -/
def decodeOrder : Json → Option Order
  | .obj fields => (decodeOrderFields fields {}).bind buildOrder
  | .arr [a, b, c, d, e, f, g] =>
      match decodeI32 a, decodeI32 b, decodeI32 c, decodeF32 d,
            decodeString e, decodeString f, decodeF32 g with
      | some oid, some pid, some qty, some sub, some addr, some zip, some tot =>
          some ⟨oid, pid, qty, sub, addr, zip, tot⟩
      | _, _, _, _, _, _, _ => none
  | _ => none

/-- Model of `serde_json::from_slice::<Order>`: parse the bytes as JSON,
then decode the `Order` shape.  The error payload is discarded, as the
`From<serde_json::Error> for ComputeError` impl does. -/
def orderFromSlice (s : String) : Except Unit Order :=
  match parseJson? s with
  | none => .error ()
  | some j =>
    match decodeOrder j with
    | some o => .ok o
    | none => .error ()

/-- Model of `serde_json` serialization of an `Order` (the value underlying
`to_string_pretty`): fields in declaration order, `i32` fields as integer
literals, `f32` fields as float literals.  Response bodies are modelled at
this value level because exact rationals have no canonical finite decimal
rendering. -/
def Order.toJson (o : Order) : Json :=
  .obj [("order_id", .num (.int o.order_id)),
        ("product_id", .num (.int o.product_id)),
        ("quantity", .num (.int o.quantity)),
        ("subtotal", .num (.float o.subtotal)),
        ("shipping_address", .str o.shipping_address),
        ("shipping_zip", .str o.shipping_zip),
        ("total", .num (.float o.total))]

/-- Model of Rust `str::parse::<f32>` restricted to finite decimal
literals: optional sign, digits with optional fraction, optional exponent,
at least one mantissa digit, nothing left over.  The `inf`/`infinity`/`nan`
literals are not modelled (floats are embedded as rationals). -/
def parseRate? (s : String) : Option ℚ :=
  let cs := s.data
  let sgn : Bool × List Char := match cs with
    | '-' :: tl => (true, tl)
    | '+' :: tl => (false, tl)
    | _ => (false, cs)
  let neg := sgn.1
  let cs1 := sgn.2
  let (ip, r1) := cs1.span Char.isDigit
  let fpR : Option (List Char × List Char) := match r1 with
    | '.' :: r => some (r.span Char.isDigit)
    | _ => some ([], r1)
  match fpR with
  | none => none
  | some (fp, r2) =>
    if ip = [] ∧ fp = [] then none
    else
      let expR : Option Int := match r2 with
        | [] => some 0
        | 'e' :: r | 'E' :: r =>
            let (eneg, r3) := match r with
              | '-' :: r4 => (true, r4)
              | '+' :: r4 => (false, r4)
              | _ => (false, r)
            let p := r3.span Char.isDigit
            if p.1 = [] ∨ p.2 ≠ [] then none
            else some (if eneg then -(digitsToNat p.1 : Int) else (digitsToNat p.1 : Int))
        | _ => none
      match expR with
      | none => none
      | some e =>
        let mant : ℚ := (digitsToNat (ip ++ fp) : ℚ)
        let q : ℚ := qmul mant (pow10 (e - (fp.length : Int)))
        some (if neg then -q else q)

/-- The `SALES_TAX_RATE_SERVICE` lazy static: the environment variable's
value when set, otherwise the default URL.  The environment is passed
explicitly as an `Option String`. -/
def SALES_TAX_RATE_SERVICE (envVar : Option String) : String :=
  match envVar with
  | some url => url
  | none => "http://localhost:8001/find_rate"

/-- The `ComputeError` enum.  The `Unexpected` cause (a boxed `dyn Error`)
is modelled by its display string, which is all the response mapping uses. -/
inductive ComputeError where
  | invalidRequest
  | taxRateNotAvailable
  | unexpected (cause : String)
deriving DecidableEq, Repr

/-- The `ErrorResponse` wire envelope. -/
structure ErrorResponse where
  status : String
  message : String
deriving DecidableEq, Repr

/-- The `ErrorResponse::new` constructor: status is always the literal
string "error". -/
def ErrorResponse.new (message : String) : ErrorResponse :=
  { status := "error", message := message }

/-- Serialization of an `ErrorResponse` (value underlying
`serde_json::to_string_pretty`). -/
def ErrorResponse.toJson (e : ErrorResponse) : Json :=
  .obj [("status", .str e.status), ("message", .str e.message)]

/-- Outcome of the reqwest rate lookup, the library boundary in `compute`:
the `send().await` can fail, the `text().await` can fail, or a response
body text is obtained. -/
inductive RateLookupOutcome where
  | sendErr
  | textErr
  | text (s : String)
deriving DecidableEq, Repr

/-- Per-request environment of `compute`: the outcome of
`hyper::body::to_bytes` (error modelled by its display string, used for
`ComputeError::Unexpected`) and the outcome of the outbound rate lookup.
Request bodies are modelled as strings (the service treats them as UTF-8
JSON text). -/
structure ComputeEnv where
  bodyBytes : Except String String
  rateLookup : RateLookupOutcome
deriving Repr

/-- HTTP method of an inbound request. -/
inductive Method where
  | GET
  | POST
  | OPTIONS
  | other (s : String)
deriving DecidableEq, Repr

/-- An inbound request: method, URI path, and the per-request environment
consumed by `compute`. -/
structure Request where
  method : Method
  path : String
  env : ComputeEnv
deriving Repr

/-- The outbound request `compute` issues to the rate service. -/
structure OutboundRequest where
  method : Method
  url : String
  body : String
deriving DecidableEq, Repr

/-- A response body: empty (`Response::default`), plain text, or a JSON
value (standing for its pretty-printed rendering). -/
inductive RespBody where
  | empty
  | plain (s : String)
  | json (j : Json)

/-- An HTTP response: status code, headers in insertion order, body. -/
structure HttpResponse where
  status : Nat
  headers : List (String × String)
  body : RespBody

/-- The three CORS headers attached by `response_build`, in insertion
order. -/
def corsHeaders : List (String × String) :=
  [("Access-Control-Allow-Origin", "*"),
   ("Access-Control-Allow-Methods", "GET, POST, OPTIONS"),
   ("Access-Control-Allow-Headers", "api,Keep-Alive,User-Agent,Content-Type")]

/-- The `response_build` helper: given status and body, attach the three
CORS headers. -/
def response_build (status : Nat) (body : RespBody) : HttpResponse :=
  { status := status, headers := corsHeaders, body := body }

/-- The `From<ComputeError> for Response<Body>` impl: map each error
variant to (status, `ErrorResponse`) and build the response through
`response_build`. -/
def responseOfComputeError : ComputeError → HttpResponse
  | .invalidRequest =>
      response_build 400 (.json (ErrorResponse.new "invalid request").toJson)
  | .taxRateNotAvailable =>
      response_build 503 (.json (ErrorResponse.new
        "The zip code in the order does not have a corresponding sales tax rate.").toJson)
  | .unexpected cause =>
      response_build 500 (.json (ErrorResponse.new cause).toJson)

/-- The `compute` function: read the body (hyper error becomes
`Unexpected` via `From<hyper::Error>`), deserialize the `Order`
(serde error becomes `InvalidRequest`), POST the order's `shipping_zip`
to the rate service (transport errors become `TaxRateNotAvailable`),
parse the rate (parse error becomes `TaxRateNotAvailable`), and set
`total := subtotal * (1 + rate)`.  The second component instruments the
outbound call: `none` when no rate-lookup request was issued, otherwise
the request that was sent.  (The source's final `to_string_pretty`
serialization of the order cannot fail in this value-level model, so its
`Unexpected` mapping has no corresponding branch.) -/
def compute (serviceUrl : String) (env : ComputeEnv) :
    Except ComputeError Order × Option OutboundRequest :=
  match env.bodyBytes with
  | .error e => (.error (.unexpected e), none)
  | .ok bytes =>
    match orderFromSlice bytes with
    | .error () => (.error .invalidRequest, none)
    | .ok order =>
      let outbound : OutboundRequest :=
        { method := .POST, url := serviceUrl, body := order.shipping_zip }
      match env.rateLookup with
      | .sendErr => (.error .taxRateNotAvailable, some outbound)
      | .textErr => (.error .taxRateNotAvailable, some outbound)
      | .text s =>
        match parseRate? s with
        | none => (.error .taxRateNotAvailable, some outbound)
        | some rate =>
            (.ok { order with total := order.subtotal * (1 + rate) }, some outbound)

/-- The static usage string served at `GET /`. -/
def usageText : String :=
  "Try POSTing data to /compute such as: `curl localhost:8002/compute -XPOST -d \x27...\x27`"

/-- The `handle_request` service handler: route on (method, path).
`OPTIONS /compute` is an empty 200 through `response_build`; `GET /` is a
bare `Response::new` (no CORS headers); `POST /compute` delegates to
`compute` and maps success through `response_build` and errors through the
`From<ComputeError>` impl; everything else is a bare default response with
status 404 (no CORS headers).  The `anyhow::Error` result type is modelled
as `Except String`; alongside the response, the instrumented outbound
rate-lookup request (if any) is returned. -/
def handle_request (serviceUrl : String) (req : Request) :
    Except String (HttpResponse × Option OutboundRequest) :=
  match req.method, req.path with
  | .OPTIONS, "/compute" => .ok (response_build 200 (.plain ""), none)
  | .GET, "/" => .ok ({ status := 200, headers := [], body := .plain usageText }, none)
  | .POST, "/compute" =>
    (match compute serviceUrl req.env with
     | (.ok order, out) => .ok (response_build 200 (.json order.toJson), out)
     | (.error err, out) => .ok (responseOfComputeError err, out))
  | _, _ => .ok ({ status := 404, headers := [], body := .empty }, none)

/-- Key list of a JSON object (empty for non-objects); used to state which
fields a serialized response carries. -/
def objKeys : Json → List String
  | .obj fields => fields.map Prod.fst
  | _ => []

/-- Concrete valid request body used by witnesses. -/
def wBody : String :=
  "\x7b\"order_id\":1,\"product_id\":2,\"quantity\":3,\"subtotal\":10.5,\"shipping_address\":\"a st\",\"shipping_zip\":\"10001\",\"total\":0.0\x7d"

/-- The order `wBody` deserializes to. -/
def wOrder : Order := ⟨1, 2, 3, mkRat 21 2, "a st", "10001", 0⟩

/-- A second valid request body, identical to `wBody` except for the input
`total` field. -/
def wBodyT99 : String :=
  "\x7b\"order_id\":1,\"product_id\":2,\"quantity\":3,\"subtotal\":10.5,\"shipping_address\":\"a st\",\"shipping_zip\":\"10001\",\"total\":99.5\x7d"

/-- The order `wBodyT99` deserializes to. -/
def wOrderT99 : Order := ⟨1, 2, 3, mkRat 21 2, "a st", "10001", mkRat 199 2⟩

/-- A concrete `GET /` request (environment irrelevant to that route). -/
def getRootRequest : Request := ⟨.GET, "/", ⟨.ok "", .sendErr⟩⟩

/-- A concrete `OPTIONS /compute` request. -/
def optionsRequest : Request := ⟨.OPTIONS, "/compute", ⟨.ok "", .sendErr⟩⟩

/-- Object members before an unknown field, for the C10 witness. -/
def wFieldsPre : List (String × Json) :=
  [("order_id", .num (.int 1)), ("product_id", .num (.int 2))]

/-- Object members after an unknown field, for the C10 witness. -/
def wFieldsPost : List (String × Json) :=
  [("quantity", .num (.int 3)), ("subtotal", .num (.float (mkRat 21 2))),
   ("shipping_address", .str "a st"), ("shipping_zip", .str "10001"),
   ("total", .num (.int 0))]

theorem qmul_eq_mul (a b : ℚ) : qmul a b = a * b := by
  rw [qmul, Rat.mkRat_eq_div]
  push_cast
  rw [← div_mul_div_comm, Rat.num_div_den, Rat.num_div_den]

theorem qadd_eq_add (a b : ℚ) : qadd a b = a + b := by
  have ha2 : a * (a.den : ℚ) = (a.num : ℚ) := by
    nth_rewrite 1 [← Rat.num_div_den a]
    exact div_mul_cancel₀ _ (by positivity)
  have hb2 : b * (b.den : ℚ) = (b.num : ℚ) := by
    nth_rewrite 1 [← Rat.num_div_den b]
    exact div_mul_cancel₀ _ (by positivity)
  rw [qadd, Rat.mkRat_eq_div]
  push_cast
  rw [div_eq_iff (by positivity : ((a.den : ℚ) * b.den) ≠ 0)]
  linear_combination (-(b.den : ℚ)) * ha2 + (-(a.den : ℚ)) * hb2

theorem responseOfComputeError_headers (e : ComputeError) :
    (responseOfComputeError e).headers = corsHeaders := by
  cases e <;> rfl

/-- C1: for every request body that deserializes to an `Order` and every
rate-lookup response body that parses as a number `r`, `compute` succeeds
with the received order whose `total` is overwritten with
`subtotal * (1 + r)`, the subtotal being the one received. -/
theorem c1_total_eq_subtotal_mul_one_add_rate
    (url bytes s : String) (o : Order) (r : ℚ)
    (hbody : orderFromSlice bytes = .ok o)
    (hrate : parseRate? s = some r) :
    (compute url { bodyBytes := .ok bytes, rateLookup := .text s }).1 =
      .ok { o with total := o.subtotal * (1 + r) } := by
  simp [compute, hbody, hrate]

theorem c1_witness :
    (compute "http://localhost:8001/find_rate"
        { bodyBytes := .ok wBody, rateLookup := .text "0.07" }).1 =
      .ok { wOrder with total := wOrder.subtotal * (1 + mkRat 7 100) } :=
  c1_total_eq_subtotal_mul_one_add_rate "http://localhost:8001/find_rate"
    wBody "0.07" wOrder (mkRat 7 100) (by rfl) (by rfl)

/-- C2 counterexample: the `GET /` usage response is built with a bare
`Response::new`, so it carries no headers at all — in particular not
`Access-Control-Allow-Origin: *` — refuting the claim that every response
carries the three CORS headers. -/
theorem c2_counterexample :
    handle_request "http://localhost:8001/find_rate" getRootRequest =
      .ok ({ status := 200, headers := [], body := .plain usageText }, none) ∧
    ("Access-Control-Allow-Origin", "*") ∉
      ({ status := 200, headers := [], body := .plain usageText } : HttpResponse).headers :=
  ⟨rfl, by simp⟩

/-- C2 (amended): responses produced for the `/compute` path — the OPTIONS
preflight, and POST success and routed errors — carry exactly the three
CORS headers; the `GET /` usage response and the 404 for undefined routes
do not go through `response_build` and carry none. -/
theorem c2_cors_on_compute_routes (url : String) (req : Request)
    (hpath : req.path = "/compute")
    (hm : req.method = .OPTIONS ∨ req.method = .POST) :
    ∃ resp out, handle_request url req = .ok (resp, out) ∧
      resp.headers = corsHeaders := by
  obtain ⟨m, p, env⟩ := req
  simp only at hpath hm
  subst hpath
  rcases hm with hm | hm <;> subst hm
  · exact ⟨_, _, rfl, rfl⟩
  · rcases hc : compute url env with ⟨res, out⟩
    cases res with
    | ok o =>
        exact ⟨response_build 200 (.json o.toJson), out,
          by simp [handle_request, hc], rfl⟩
    | error e =>
        exact ⟨responseOfComputeError e, out,
          by simp [handle_request, hc], responseOfComputeError_headers e⟩

theorem c2_witness :
    ∃ resp out,
      handle_request "http://localhost:8001/find_rate" optionsRequest =
        .ok (resp, out) ∧ resp.headers = corsHeaders :=
  c2_cors_on_compute_routes "http://localhost:8001/find_rate" optionsRequest
    rfl (Or.inl rfl)

/-- C3: a request body that does not deserialize into the `Order` shape
makes `compute` fail with `InvalidRequest` before any outbound call, and
`POST /compute` answers 400 with the JSON error envelope
status "error" / message "invalid request". -/
theorem c3_invalid_request_400_no_outbound
    (url bytes : String) (rl : RateLookupOutcome)
    (hbad : orderFromSlice bytes = .error ()) :
    compute url { bodyBytes := .ok bytes, rateLookup := rl } =
      (.error .invalidRequest, none) ∧
    handle_request url ⟨.POST, "/compute", ⟨.ok bytes, rl⟩⟩ =
      .ok (response_build 400
        (.json (.obj [("status", .str "error"), ("message", .str "invalid request")])),
        none) := by
  have h1 : compute url { bodyBytes := .ok bytes, rateLookup := rl } =
      (.error .invalidRequest, none) := by
    simp [compute, hbad]
  exact ⟨h1, by simp [handle_request, h1, responseOfComputeError,
    ErrorResponse.new, ErrorResponse.toJson]⟩

theorem c3_witness :
    compute "http://localhost:8001/find_rate"
        { bodyBytes := .ok "not json", rateLookup := .sendErr } =
      (.error .invalidRequest, none) ∧
    handle_request "http://localhost:8001/find_rate"
        ⟨.POST, "/compute", ⟨.ok "not json", .sendErr⟩⟩ =
      .ok (response_build 400
        (.json (.obj [("status", .str "error"), ("message", .str "invalid request")])),
        none) :=
  c3_invalid_request_400_no_outbound "http://localhost:8001/find_rate"
    "not json" .sendErr (by rfl)

/-- C4: every rate-lookup failure — transport error on send, failure
reading the response body, or a body that does not parse as a float —
collapses to `TaxRateNotAvailable`, answered as 503 with the fixed
message. -/
theorem c4_rate_failures_one_kind_503
    (url bytes : String) (o : Order) (rl : RateLookupOutcome)
    (hok : orderFromSlice bytes = .ok o)
    (hfail : rl = .sendErr ∨ rl = .textErr ∨
      ∃ s, rl = .text s ∧ parseRate? s = none) :
    (compute url { bodyBytes := .ok bytes, rateLookup := rl }).1 =
      .error .taxRateNotAvailable ∧
    handle_request url ⟨.POST, "/compute", ⟨.ok bytes, rl⟩⟩ =
      .ok (response_build 503
        (.json (.obj [("status", .str "error"),
          ("message", .str
            "The zip code in the order does not have a corresponding sales tax rate.")])),
        some ⟨.POST, url, o.shipping_zip⟩) := by
  have h1 : compute url { bodyBytes := .ok bytes, rateLookup := rl } =
      (.error .taxRateNotAvailable, some ⟨.POST, url, o.shipping_zip⟩) := by
    rcases hfail with h | h | ⟨s, h, hs⟩ <;> subst h <;>
      simp [compute, hok, *]
  exact ⟨by simp [h1], by simp [handle_request, h1, responseOfComputeError,
    ErrorResponse.new, ErrorResponse.toJson]⟩

theorem c4_witness :
    (compute "http://localhost:8001/find_rate"
        { bodyBytes := .ok wBody, rateLookup := .text "abc" }).1 =
      .error .taxRateNotAvailable ∧
    handle_request "http://localhost:8001/find_rate"
        ⟨.POST, "/compute", ⟨.ok wBody, .text "abc"⟩⟩ =
      .ok (response_build 503
        (.json (.obj [("status", .str "error"),
          ("message", .str
            "The zip code in the order does not have a corresponding sales tax rate.")])),
        some ⟨.POST, "http://localhost:8001/find_rate", wOrder.shipping_zip⟩) :=
  c4_rate_failures_one_kind_503 "http://localhost:8001/find_rate" wBody wOrder
    (.text "abc") (by rfl) (Or.inr (Or.inr ⟨"abc", rfl, by rfl⟩))

/-- C5: two valid request bodies whose orders agree on every field except
`total`, handled with the same rate-lookup outcome, produce identical
`POST /compute` results (responses and outbound traffic alike): the input
`total` never influences the output. -/
theorem c5_input_total_never_influences_output
    (url b1 b2 : String) (o1 o2 : Order) (rl : RateLookupOutcome)
    (h1 : orderFromSlice b1 = .ok o1) (h2 : orderFromSlice b2 = .ok o2)
    (hid : o1.order_id = o2.order_id) (hpid : o1.product_id = o2.product_id)
    (hq : o1.quantity = o2.quantity) (hsub : o1.subtotal = o2.subtotal)
    (haddr : o1.shipping_address = o2.shipping_address)
    (hzip : o1.shipping_zip = o2.shipping_zip) :
    handle_request url ⟨.POST, "/compute", ⟨.ok b1, rl⟩⟩ =
      handle_request url ⟨.POST, "/compute", ⟨.ok b2, rl⟩⟩ := by
  obtain ⟨i1, p1, q1, s1, a1, z1, t1⟩ := o1
  obtain ⟨i2, p2, q2, s2, a2, z2, t2⟩ := o2
  simp only at hid hpid hq hsub haddr hzip
  subst hid hpid hq hsub haddr hzip
  simp only [handle_request, compute, h1, h2]

theorem c5_witness :
    handle_request "http://localhost:8001/find_rate"
        ⟨.POST, "/compute", ⟨.ok wBody, .text "0.07"⟩⟩ =
      handle_request "http://localhost:8001/find_rate"
        ⟨.POST, "/compute", ⟨.ok wBodyT99, .text "0.07"⟩⟩ :=
  c5_input_total_never_influences_output "http://localhost:8001/find_rate"
    wBody wBodyT99 wOrder wOrderT99 (.text "0.07")
    (by rfl) (by rfl) rfl rfl rfl rfl rfl rfl

/-- C6: on every successful `compute`, all fields of the returned order
other than `total` equal the received order's fields — in particular
`shipping_address` is pure passthrough — and `total` is determined by
`subtotal` and the looked-up rate alone. -/
theorem c6_fields_passthrough
    (url bytes s : String) (o : Order) (r : ℚ)
    (hok : orderFromSlice bytes = .ok o)
    (hr : parseRate? s = some r) :
    ∃ o2, (compute url { bodyBytes := .ok bytes, rateLookup := .text s }).1 = .ok o2 ∧
      o2.order_id = o.order_id ∧ o2.product_id = o.product_id ∧
      o2.quantity = o.quantity ∧ o2.subtotal = o.subtotal ∧
      o2.shipping_address = o.shipping_address ∧
      o2.shipping_zip = o.shipping_zip ∧
      o2.total = o.subtotal * (1 + r) := by
  refine ⟨{ o with total := o.subtotal * (1 + r) }, ?_, rfl, rfl, rfl, rfl, rfl, rfl, rfl⟩
  simp [compute, hok, hr]

theorem c6_witness :
    ∃ o2, (compute "http://localhost:8001/find_rate"
        { bodyBytes := .ok wBody, rateLookup := .text "0.07" }).1 = .ok o2 ∧
      o2.order_id = wOrder.order_id ∧ o2.product_id = wOrder.product_id ∧
      o2.quantity = wOrder.quantity ∧ o2.subtotal = wOrder.subtotal ∧
      o2.shipping_address = wOrder.shipping_address ∧
      o2.shipping_zip = wOrder.shipping_zip ∧
      o2.total = wOrder.subtotal * (1 + mkRat 7 100) :=
  c6_fields_passthrough "http://localhost:8001/find_rate" wBody "0.07"
    wOrder (mkRat 7 100) (by rfl) (by rfl)

/-- C7: for every valid order, the outbound rate lookup is an HTTP POST to
the configured service URL — the environment value when set, otherwise
`http://localhost:8001/find_rate` — whose body is exactly the order's
`shipping_zip` string. -/
theorem c7_outbound_is_post_zip_to_service
    (ev : Option String) (bytes : String) (o : Order) (rl : RateLookupOutcome)
    (hok : orderFromSlice bytes = .ok o) :
    (compute (SALES_TAX_RATE_SERVICE ev)
        { bodyBytes := .ok bytes, rateLookup := rl }).2 =
      some ⟨.POST, SALES_TAX_RATE_SERVICE ev, o.shipping_zip⟩ ∧
    SALES_TAX_RATE_SERVICE none = "http://localhost:8001/find_rate" ∧
    ∀ u, SALES_TAX_RATE_SERVICE (some u) = u := by
  refine ⟨?_, rfl, fun u => rfl⟩
  cases rl with
  | sendErr => simp [compute, hok]
  | textErr => simp [compute, hok]
  | text s => cases hs : parseRate? s <;> simp [compute, hok, hs]

theorem c7_witness :
    (compute (SALES_TAX_RATE_SERVICE none)
        { bodyBytes := .ok wBody, rateLookup := .text "0.07" }).2 =
      some ⟨.POST, SALES_TAX_RATE_SERVICE none, wOrder.shipping_zip⟩ ∧
    SALES_TAX_RATE_SERVICE none = "http://localhost:8001/find_rate" ∧
    ∀ u, SALES_TAX_RATE_SERVICE (some u) = u :=
  c7_outbound_is_post_zip_to_service none wBody wOrder (.text "0.07") (by rfl)

/-- C8: every `OPTIONS /compute` request — whatever the request body or
rate-lookup environment — is answered 200 with an empty body and the three
CORS headers, with no outbound call. -/
theorem c8_options_preflight (url : String) (env : ComputeEnv) :
    handle_request url ⟨.OPTIONS, "/compute", env⟩ =
      .ok (response_build 200 (.plain ""), none) ∧
    (response_build 200 (.plain "")).status = 200 ∧
    (response_build 200 (.plain "")).headers = corsHeaders :=
  ⟨rfl, rfl, rfl⟩

/-- C9: the handler is total on its error path — for every incoming
request, including every `ComputeError` raised by `compute`,
`handle_request` returns `Ok` with a response; its `Err` branch is never
taken. -/
theorem c9_handler_always_ok (url : String) (req : Request) :
    ∃ res, handle_request url req = .ok res := by
  obtain ⟨m, p, env⟩ := req
  unfold handle_request
  split
  · exact ⟨_, rfl⟩
  · exact ⟨_, rfl⟩
  · split <;> exact ⟨_, rfl⟩
  · exact ⟨_, rfl⟩

/-- C10: an unknown member anywhere in the request's JSON object does not
change what the `Order` deserializer produces (unknown fields are ignored,
not an error), and a serialized success response carries exactly the seven
`Order` field names, so unknown input fields are absent from it. -/
theorem c10_unknown_fields_ignored
    (l1 l2 : List (String × Json)) (n : String) (v : Json)
    (hn : n ∉ orderFieldNames) :
    decodeOrder (.obj (l1 ++ (n, v) :: l2)) = decodeOrder (.obj (l1 ++ l2)) ∧
    ∀ o : Order, objKeys (Order.toJson o) = orderFieldNames := by
  have hskip : ∀ b : OrderBuilder, setOrderField b n v = some b := by
    intro b
    simp only [orderFieldNames, List.mem_cons, List.mem_singleton] at hn
    push_neg at hn
    obtain ⟨h1, h2, h3, h4, h5, h6, h7, _⟩ := hn
    simp [setOrderField, h1, h2, h3, h4, h5, h6, h7]
  have hfields : ∀ b : OrderBuilder,
      decodeOrderFields (l1 ++ (n, v) :: l2) b = decodeOrderFields (l1 ++ l2) b := by
    induction l1 with
    | nil => intro b; simp [decodeOrderFields, hskip b]
    | cons hd tl ih =>
        intro b
        obtain ⟨m, w⟩ := hd
        simp only [List.cons_append, decodeOrderFields]
        cases setOrderField b m w with
        | none => rfl
        | some b2 => exact ih b2
  exact ⟨by simp [decodeOrder, hfields], fun o => rfl⟩

theorem c10_witness :
    decodeOrder (.obj (wFieldsPre ++ ("junk", .null) :: wFieldsPost)) =
      decodeOrder (.obj (wFieldsPre ++ wFieldsPost)) ∧
    ∀ o : Order, objKeys (Order.toJson o) = orderFieldNames :=
  c10_unknown_fields_ignored wFieldsPre wFieldsPost "junk" .null (by decide)

end OrderTotal
